import Mathlib

/-!
Verification development for the Digital Rhinos scene (`src/unnamed/part_000`).

The development shallowly embeds the animation core of the repository:

* the per-vertex ripple deformation of the flag (`rippleMesh`, lines 148-177),
* the flag setup: mesh classification by vertex count, the cache of rest
  positions, and the abort/crash behaviour (lines 67-112),
* the per-frame wave pass with its early exits (lines 136-196),
* the flag intro timeline (rotate, wave decay, clickability; lines 114-130)
  and the click handler guard (lines 228-231),
* the rhino bone lookup and the leg/body gsap timelines (lines 266-464).

Vertex coordinates and wave arithmetic are modelled over `ℝ` (JS `number`
arithmetic read as real arithmetic, `Math.sin` as `Real.sin`); timeline
clock values, tween durations and the quaternion constants (exact decimal
literals in the source) are modelled over `ℚ` so that concrete runs of the
sequencing logic evaluate.
-/

namespace DigitalRhinos

/-! ## RippleField: the per-vertex displacement of `rippleMesh`

Source, lines 148-152 (constants) and 160-173 (loop body):

    const waveSpeed = 4.2;
    const waveHeight = 0.15 * waveStrength.current;
    const waveLength = 2.0;
    const width = 4;
    ...
    const edgeFactor = Math.min(Math.max((x + width / 2) / width, 0), 1);
    const wave = Math.sin(time * waveSpeed + x * waveLength) * waveHeight * edgeFactor;
    pos.array[ix] = x;
    pos.array[ix + 1] = y + wave;
    pos.array[ix + 2] = z + wave;
-/

/-- Constant `width` from line 152. -/
noncomputable def width : ℝ := 4

/-- Constant `waveSpeed` from line 149. -/
noncomputable def waveSpeed : ℝ := 4.2

/-- Constant `waveLength` from line 151. -/
noncomputable def waveLength : ℝ := 2.0

/-- The term `Math.min(Math.max((x + width / 2) / width, 0), 1)` (line 166). -/
noncomputable def edgeFactor (x : ℝ) : ℝ :=
  min (max ((x + width / 2) / width) 0) 1

/-- The `wave` term of line 168-169; `s` is `waveStrength.current`, so
`waveHeight = 0.15 * s` (line 150). -/
noncomputable def waveAt (time s x : ℝ) : ℝ :=
  Real.sin (time * waveSpeed + x * waveLength) * (0.15 * s) * edgeFactor x

/-- One iteration of the vertex loop (lines 160-173): reads the rest position
`v` from `originalPositions`, writes back `x` unchanged and adds `wave` to the
`y` and `z` components. -/
noncomputable def rippleVertex (time s : ℝ) (v : ℝ × ℝ × ℝ) : ℝ × ℝ × ℝ :=
  (v.1, v.2.1 + waveAt time s v.1, v.2.2 + waveAt time s v.1)

/-- A three.js `BufferGeometry` as the core sees it: the mutable `position`
attribute, the `userData.originalPositions` cache (absent until setup caches
it), whether `computeVertexNormals` has run, and the `needsUpdate` flag. -/
structure Geometry where
  positions : List (ℝ × ℝ × ℝ)
  originalPositions : Option (List (ℝ × ℝ × ℝ))
  normalsComputed : Bool
  needsUpdate : Bool

/-- Function `rippleMesh` (lines 154-177): if `geo.userData.originalPositions` is
absent the mesh is left alone (`if (!original) return;`); otherwise every
current position is overwritten from the rest position via `rippleVertex`
and `pos.needsUpdate = true` is set. -/
noncomputable def rippleMeshGeo (time s : ℝ) (g : Geometry) : Geometry :=
  match g.originalPositions with
  | none => g
  | some orig =>
      { g with positions := orig.map (rippleVertex time s), needsUpdate := true }

/-! ## GeometryClassifier and flag setup (lines 67-112)

The `useEffect` of `FlagModel` collects every `Mesh` under the `Flag` group
in traversal order into `deformMeshes`, sorts in place by
`b.geometry.attributes.position.count - a.geometry.attributes.position.count`
(vertex count descending; `Array.prototype.sort` is guaranteed stable, which
the stable `List.insertionSort` reproduces), reads slots 0-4 as
`primary .. quincenternary`, aborts with a warning when `primary` or
`secondary` is missing, and then runs

    [primary, secondary, tertiary, quaternary, quincenternary].forEach((mesh) => {
      const geo = mesh.geometry;
      geo.computeVertexNormals();
      geo.userData.originalPositions = geo.attributes.position.array.slice();
    });

over ALL five slots: a slot holding JS `undefined` makes `mesh.geometry`
throw a `TypeError`, which the `Except` in `cacheSlot` records. -/

/-- A mesh of the flag group: a name and its geometry. -/
structure FlagMesh where
  name : String
  geometry : Geometry

/-- The `geometry.attributes.position.count` value: the vertex count. -/
def meshCount (m : FlagMesh) : ℕ := m.geometry.positions.length

/-- The sort order of line 84-88: `a` may come before `b` when
`b`'s vertex count is at most `a`'s (descending). -/
def countGE (a b : FlagMesh) : Prop := meshCount b ≤ meshCount a

instance : DecidableRel countGE := fun a b => Nat.decLe (meshCount b) (meshCount a)

instance : IsTotal FlagMesh countGE := ⟨fun a b => le_total (meshCount b) (meshCount a)⟩

instance : IsTrans FlagMesh countGE := ⟨fun _ _ _ h1 h2 => le_trans h2 h1⟩

/-- The call `deformMeshes.sort((a, b) => b.count - a.count)` (lines 84-88): the stable
descending sort by vertex count. -/
def sortMeshes (ms : List FlagMesh) : List FlagMesh := List.insertionSort countGE ms

/-- The five slots read at lines 90-94: `deformMeshes[0] .. deformMeshes[4]`,
i.e. the top-5 of the sorted list. -/
def selectTargets (ms : List FlagMesh) : List FlagMesh := (sortMeshes ms).take 5

/-- One step of the cache `forEach` (lines 101-105). On a present mesh it runs
`computeVertexNormals` and snapshots the positions into
`userData.originalPositions`; on an absent slot (`undefined`) the access
`mesh.geometry` throws. -/
def cacheSlot : Option FlagMesh → Except String FlagMesh
  | none => .error "TypeError: cannot read geometry of undefined"
  | some m =>
      .ok { m with geometry :=
        { m.geometry with
            normalsComputed := true
            originalPositions := some m.geometry.positions } }

/-- The whole cache `forEach` over the five slots; it stops at the first
thrown `TypeError`. -/
def cacheAll (slots : List (Option FlagMesh)) : Except String (List FlagMesh) :=
  slots.mapM cacheSlot

/-- Outcome of the flag `useEffect` body from line 67 on. `aborted` is the
early `return` after `console.warn` (lines 95-98); `crashed` is an uncaught
JS exception escaping the effect. -/
inductive SetupResult where
  | aborted (warning : String)
  | crashed (error : String)
  | ok (targets : List FlagMesh)

/-- Lines 84-112 of the flag setup: sort, pick the five slots, guard on
`primary`/`secondary`, then cache the rest positions of all five slots. -/
def flagSetup (ms : List FlagMesh) : SetupResult :=
  match (sortMeshes ms)[0]?, (sortMeshes ms)[1]? with
  | some _, some _ =>
      match cacheAll
          [(sortMeshes ms)[0]?, (sortMeshes ms)[1]?, (sortMeshes ms)[2]?,
           (sortMeshes ms)[3]?, (sortMeshes ms)[4]?] with
      | .error e => .crashed e
      | .ok cached => .ok cached
  | _, _ => .aborted "🚩 Not enough deformable meshes found"

/-! ## The per-frame wave pass (`useFrame`, lines 136-196) -/

/-- The mesh handles stashed on `flagRef` at lines 108-112: `flagRef.current`
is `primary`, and `secondary .. quincenternary` are extra fields; the last
three may be absent. -/
structure RippleTargets where
  primary : Geometry
  secondary : Geometry
  tertiary : Option Geometry
  quaternary : Option Geometry
  quincenternary : Option Geometry

/-- The mutable state of `FlagModel`: `flagRef` (with its stashed extra
fields), `waveStrength.current` and `isClickable.current`. -/
structure FlagState where
  flagRef : Option RippleTargets
  waveStrength : ℝ
  isClickable : Bool

/-- Counts `1` for a present optional target, `0` for an absent one. -/
def countOpt : Option Geometry → ℕ
  | none => 0
  | some _ => 1

/-- The `useFrame` callback (lines 136-183): early return when
`waveStrength.current <= 0`, early return when `primary` or `secondary` is
missing, otherwise `rippleMesh` runs on `primary` and `secondary` and on each
present optional target.  The second component counts how many times
`rippleMesh` was invoked during the frame. -/
noncomputable def flagFrame (time : ℝ) (st : FlagState) : FlagState × ℕ :=
  if st.waveStrength ≤ 0 then (st, 0)
  else
    match st.flagRef with
    | none => (st, 0)
    | some tg =>
        let s := st.waveStrength
        let tg' : RippleTargets :=
          { primary := rippleMeshGeo time s tg.primary
            secondary := rippleMeshGeo time s tg.secondary
            tertiary := tg.tertiary.map (rippleMeshGeo time s)
            quaternary := tg.quaternary.map (rippleMeshGeo time s)
            quincenternary := tg.quincenternary.map (rippleMeshGeo time s) }
        ({ st with flagRef := some tg' },
          2 + countOpt tg.tertiary + countOpt tg.quaternary + countOpt tg.quincenternary)

/-- The `flagRef` contents after the setup effect ran: the guard `return`s of
lines 43-46 and 95-98 and a thrown `TypeError` all leave `flagRef.current`
at its initial `null` (the stores at lines 108-112 come after the cache
`forEach`). -/
def flagRefAfterSetup : SetupResult → Option RippleTargets
  | .aborted _ => none
  | .crashed _ => none
  | .ok cached =>
      match cached with
      | p :: s :: rest =>
          some
            { primary := p.geometry
              secondary := s.geometry
              tertiary := (rest[0]?).map FlagMesh.geometry
              quaternary := (rest[1]?).map FlagMesh.geometry
              quincenternary := (rest[2]?).map FlagMesh.geometry }
      | _ => none

/-! ## The flag intro timeline (lines 114-130) and the click guard (228-231)

    gsap.to(root.rotation, { y: Math.PI * 2, duration: 4, ease: "power2.inOut",
      onComplete: () => {
        waveStrength.current = 5;
        gsap.to(waveStrength, { current: 0, duration: 5, ease: "power2.out",
          onComplete: () => { isClickable.current = true; } });
      }});

The gsap clock is modelled over `ℚ` with `t = 0` at setup.  The rotate tween
occupies `[0, 4)`; its `onComplete` at `t = 4` sets `waveStrength` to `5` and
starts the decay tween, which occupies `[4, 9)` tweening `waveStrength` from
`5` to `0` under gsap's `power2.out` ease `p ↦ 1 - (1 - p)^3`; its
`onComplete` at `t = 9` sets `isClickable`. -/

/-- gsap's `power2.out` ease (a cubic ease-out). -/
def easePower2Out (p : ℚ) : ℚ := 1 - (1 - p) ^ 3

/-- The `waveStrength.current` value as a function of elapsed time: `0` until the
rotate tween completes, then the eased decay from `5` towards `0`, then `0`. -/
def waveStrengthAt (t : ℚ) : ℚ :=
  if t < 4 then 0
  else if t < 9 then 5 + (0 - 5) * easePower2Out ((t - 4) / 5)
  else 0

/-- The `isClickable.current` value as a function of elapsed time: set exactly when the
decay tween completes at `t = 9`. -/
def isClickableAt (t : ℚ) : Bool := 9 ≤ t

/-- The `onClick` handler of the invisible hit area (lines 228-231):

    if (waveStrength.current > 0) return;
    window.location.href = "https://digitalrhinos.com";

so a click at time `t` navigates exactly when `waveStrength.current > 0`
fails to hold. -/
def clickNavigates (t : ℚ) : Bool := !(decide (0 < waveStrengthAt t))

/-! ## The rhino: bones, leg loop and body timeline (lines 266-464) -/

/-- A unit quaternion as three.js stores it; the source's quaternion
constants are exact decimal literals, represented exactly in `ℚ`. -/
structure Quat where
  x : ℚ
  y : ℚ
  z : ℚ
  w : ℚ
deriving DecidableEq

/-- A skeletal bone: a name and its current orientation. -/
structure Bone where
  name : String
  quaternion : Quat

/-- Constant `lookAtViewerQuat` (lines 286-291). -/
def lookAtViewerQuat : Quat :=
  ⟨-0.3826812549074975, -0.0012971686512075215, 0.0031314363856131937, 0.9238742409459028⟩

/-- Constant `forwardFrontL` (lines 303-308). -/
def forwardFrontL : Quat :=
  ⟨0.2105577234701947, -0.7490538817867567, 0.3166884659892685, 0.5424870461252903⟩

/-- Constant `backwardFrontL` (lines 310-315). -/
def backwardFrontL : Quat :=
  ⟨0.43725962297372956, -0.5181884477809773, 0.6267806912284278, 0.38396714995369796⟩

/-- Constant `forwardBackL` (lines 317-322). -/
def forwardBackL : Quat :=
  ⟨0.2923585826261666, -0.7221053563528358, 0.41249857984350696, 0.47216017797188514⟩

/-- Constant `backwardBackL` (lines 324-329). -/
def backwardBackL : Quat :=
  ⟨0.46451037371875004, -0.4801202747394801, 0.6790255855492136, 0.3043663700300849⟩

/-- Constant `forwardFrontR` (lines 331-336). -/
def forwardFrontR : Quat :=
  ⟨0.31663267436445885, -0.5478111952176493, 0.20930112921304217, 0.7455465778785493⟩

/-- Constant `backwardFrontR` (lines 338-343). -/
def backwardFrontR : Quat :=
  ⟨0.6251117107370124, -0.3892699585317157, 0.43860342871477914, 0.515103192924535⟩

/-- Constant `forwardBackR` (lines 345-350). -/
def forwardBackR : Quat :=
  ⟨0.48848472496773976, -0.5147301606915479, 0.2910137458299352, 0.6416749151988816⟩

/-- Constant `backwardBackR` (lines 352-357). -/
def backwardBackR : Quat :=
  ⟨0.6968593983529858, -0.36418252110954535, 0.46584034808699476, 0.40589530946959085⟩

/-- gsap ease names used by the rhino timelines. -/
inductive EaseTag where
  | power2InOut
  | power2Out
  | sineInOut
deriving DecidableEq

/-- A half-cycle of the leg loop (`legTl.to({t: 0}, {t: 1, duration: 0.5,
ease: "sine.inOut", onUpdate ...})`): each frame it slerps the four leg
joints between the recorded `from`/`to` keyframes at the eased progress. -/
structure LegStep where
  duration : ℚ
  ease : EaseTag
  frontLFrom : Quat
  frontLTo : Quat
  backLFrom : Quat
  backLTo : Quat
  frontRFrom : Quat
  frontRTo : Quat
  backRFrom : Quat
  backRTo : Quat
deriving DecidableEq

/-- The leg loop timeline (lines 360-408):
`gsap.timeline({ repeat: -1, paused: true })` with the two half-cycles. -/
structure LegTl where
  repeatForever : Bool
  startPaused : Bool
  steps : List LegStep
deriving DecidableEq

/-- Timeline `legTl` with its two half-cycle tweens exactly as recorded at
lines 362-408. -/
def legTl : LegTl :=
  { repeatForever := true
    startPaused := true
    steps :=
      [ { duration := 0.5, ease := .sineInOut
          frontLFrom := backwardFrontL, frontLTo := forwardFrontL
          backLFrom := forwardBackL, backLTo := backwardBackL
          frontRFrom := forwardFrontR, frontRTo := backwardFrontR
          backRFrom := backwardBackR, backRTo := forwardBackR }
      , { duration := 0.5, ease := .sineInOut
          frontLFrom := forwardFrontL, frontLTo := backwardFrontL
          backLFrom := backwardBackL, backLTo := forwardBackL
          frontRFrom := backwardFrontR, frontRTo := forwardFrontR
          backRFrom := forwardBackR, backRTo := backwardBackR } ] }

/-- One step of `bodyTl` (lines 417-458): the empty wait, the `.call`s that
play/pause `legTl`, the root-position tween and the conditional neck tween. -/
inductive BodyStep where
  | wait (duration : ℚ)
  | callLegPlay
  | callLegPause
  | moveTween (duration : ℚ) (toX : ℚ) (ease : EaseTag)
  | neckTween (duration : ℚ) (fromQ : Quat) (toQ : Quat) (ease : EaseTag)
deriving DecidableEq

/-- Timeline `bodyTl` (lines 417-458).  `neckStart` is `startQuat`, the clone of the
neck bone's orientation taken when the timeline is built (line 440); it is
`none` exactly when `Neck_mover_bone` did not resolve, in which case the
look-at tween is not appended (the `if (neckBone)` of line 439). -/
def bodyTl (neckStart : Option Quat) : List BodyStep :=
  [ .wait 5
  , .callLegPlay
  , .moveTween 4 (-9.5) .power2InOut
  , .callLegPause ]
    ++ (match neckStart with
        | some q => [.neckTween 1.8 q lookAtViewerQuat .power2Out]
        | none => [])

/-- How long a `bodyTl` step occupies the timeline (`.call` steps are
instantaneous). -/
def stepDuration : BodyStep → ℚ
  | .wait d => d
  | .callLegPlay => 0
  | .callLegPause => 0
  | .moveTween d _ _ => d
  | .neckTween d _ _ _ => d

/-- The timeline position at which step `i` starts: the sum of the durations
of the steps before it (gsap appends each step at the end of the previous
one). -/
def stepStart (steps : List BodyStep) (i : ℕ) : ℚ :=
  ((steps.take i).map stepDuration).sum

/-- The effect of a step on the paused/playing state of `legTl`:
only the two `.call` steps touch it. -/
def legEffect : BodyStep → Bool → Bool
  | .callLegPlay, _ => true
  | .callLegPause, _ => false
  | .wait _, b => b
  | .moveTween _ _ _, b => b
  | .neckTween _ _ _ _, b => b

/-- Replays the timeline up to clock value `t`: a step starting at position
`now ≤ t` has fired by `t` and applies its `legEffect`; later steps have
not run. -/
def legStateGo (t : ℚ) : Bool → ℚ → List BodyStep → Bool
  | playing, _, [] => playing
  | playing, now, step :: rest =>
      if now ≤ t then legStateGo t (legEffect step playing) (now + stepDuration step) rest
      else playing

/-- Whether `legTl` is playing at clock value `t`: it starts paused
(`paused: true`) and is toggled by the fired `.call` steps. -/
def legPlayingAt (steps : List BodyStep) (t : ℚ) : Bool :=
  legStateGo t false 0 steps

/-- Recognises the `.call(() => legTl.play())` step. -/
def isLegPlay : BodyStep → Bool
  | .callLegPlay => true
  | _ => false

/-- Whether a step writes the neck bone's orientation (only the look-at
tween does; the leg loop writes only the four leg joints). -/
def writesNeck : BodyStep → Bool
  | .neckTween _ _ _ _ => true
  | _ => false

/-- The two timelines built by the rhino `useEffect`. -/
structure MascotTimelines where
  legs : LegTl
  body : List BodyStep

/-- Outcome of the rhino `useEffect` (lines 266-464): either the early
`return` after `console.warn("🦏 Missing leg bones")`, or the two timelines.
On abort no timeline exists, so no timeline callback can ever mutate a
joint. -/
inductive RhinoSetupResult where
  | aborted (warning : String)
  | ok (timelines : MascotTimelines)

/-- Lines 279-464: resolve the four leg bones and the neck bone by name from
the traversed bone table, abort when a leg bone is missing (the neck bone
only gets a warning), otherwise build `legTl` and `bodyTl`, capturing the
neck's current orientation for the look-at tween. -/
def rhinoSetup (bones : String → Option Bone) : RhinoSetupResult :=
  match bones "Front_leg_1_L", bones "Back_leg_1_L", bones "Front_leg_1_R", bones "Back_leg_1_R" with
  | some _, some _, some _, some _ =>
      .ok { legs := legTl, body := bodyTl ((bones "Neck_mover_bone").map Bone.quaternion) }
  | _, _, _, _ => .aborted "🦏 Missing leg bones"

/-! ## Concrete fixtures used by witnesses -/

/-- A 1-vertex test mesh. -/
def meshA : FlagMesh := ⟨"a", ⟨[(0, 0, 0)], none, false, false⟩⟩

/-- A 3-vertex test mesh. -/
def meshB : FlagMesh := ⟨"b", ⟨[(0, 0, 0), (0, 1, 0), (0, 0, 1)], none, false, false⟩⟩

/-- Another 3-vertex test mesh (a vertex-count tie with `meshB`). -/
def meshC : FlagMesh := ⟨"c", ⟨[(1, 0, 0), (1, 1, 0), (1, 0, 1)], none, false, false⟩⟩

/-! ## Claim theorems -/

/-- C1: for every rest position `(x, y, z)`, elapsed time `t` and
`amplitudeScale > 0`, the per-vertex displacement satisfies
`edge = clamp((x + 2) / 4, 0, 1)`,
`wave = sin(t * 4.2 + x * 2.0) * (0.15 * amplitudeScale) * edge`, and the
output vertex is `(x, y + wave, z + wave)`; in particular the rest position
`(2, 0, 0)` at `t = 0`, `amplitudeScale = 1` maps to
`(2, sin 4 * 0.15, sin 4 * 0.15)`. -/
theorem ripple_displacement_c1 (x y z t s : ℝ) (_hs : 0 < s) :
    rippleVertex t s (x, y, z) =
      (x, y + Real.sin (t * 4.2 + x * 2.0) * (0.15 * s) * min (max ((x + 2) / 4) 0) 1,
          z + Real.sin (t * 4.2 + x * 2.0) * (0.15 * s) * min (max ((x + 2) / 4) 0) 1)
    ∧ rippleVertex 0 1 (2, 0, 0) = (2, Real.sin 4 * 0.15, Real.sin 4 * 0.15) := by
  constructor
  · simp only [rippleVertex, waveAt, edgeFactor, width, waveSpeed, waveLength]
    norm_num
  · simp only [rippleVertex, waveAt, edgeFactor, width, waveSpeed, waveLength]
    norm_num

/-- Witness for C1: the hypothesis `0 < amplitudeScale` holds at `1`, and the
scenario vertex evaluates as claimed. -/
theorem ripple_displacement_c1_witness :
    (0 : ℝ) < 1 ∧ rippleVertex 0 1 (2, 0, 0) = (2, Real.sin 4 * 0.15, Real.sin 4 * 0.15) :=
  ⟨by norm_num, (ripple_displacement_c1 2 0 0 0 1 (by norm_num)).2⟩

/-- C9, counterexample to the second half of the claim: at
`t = (2π - 4) / 4.2` the vertex with `x = 2` (the `edge = 1` vertex) receives
exactly zero displacement while the vertex with `x = 2 - π/4` receives a
displacement of strictly positive magnitude, so the `edge = 1` vertex does
not have maximal displacement magnitude at every fixed `t`. -/
theorem edge_max_c9_counterexample :
    edgeFactor 2 = 1
    ∧ waveAt ((2 * Real.pi - 4) / 4.2) 1 2 = 0
    ∧ 0 < |waveAt ((2 * Real.pi - 4) / 4.2) 1 (2 - Real.pi / 4)| := by
  have hpi : Real.pi < 3.15 := Real.pi_lt_d2
  have hpi0 : 0 < Real.pi := Real.pi_pos
  have harg : (2 * Real.pi - 4) / 4.2 * waveSpeed = 2 * Real.pi - 4 := by
    rw [waveSpeed]; field_simp
  have hedge : edgeFactor 2 = 1 := by
    simp only [edgeFactor, width]; norm_num
  refine ⟨hedge, ?_, ?_⟩
  · simp only [waveAt, waveLength, harg]
    norm_num [Real.sin_two_pi]
  · have harg2 : (2 * Real.pi - 4) / 4.2 * waveSpeed + (2 - Real.pi / 4) * waveLength
        = 2 * Real.pi - Real.pi / 2 := by
      rw [harg, waveLength]; ring
    have hsin : Real.sin (2 * Real.pi - Real.pi / 2) = -1 := by
      rw [Real.sin_sub, Real.sin_two_pi, Real.cos_two_pi, Real.sin_pi_div_two,
        Real.cos_pi_div_two]
      ring
    have hedge2 : edgeFactor (2 - Real.pi / 4) = 1 - Real.pi / 16 := by
      simp only [edgeFactor, width]
      rw [max_eq_left (by nlinarith), min_eq_left (by nlinarith)]
      ring
    simp only [waveAt, harg2, hsin, hedge2]
    rw [abs_of_nonpos (by nlinarith)]
    nlinarith

/-- C9 as amended: at `edge = 0` (rest `x = -2`) the displacement is exactly
zero for every `t` and every `amplitudeScale`, and the displacement magnitude
of any vertex is bounded by the envelope `0.15 * |amplitudeScale| * edge`,
an envelope that is largest at `edge = 1` (where `edgeFactor x` attains its
maximal value `1`, as it does at `x = 2`); the instantaneous displacement
magnitude at `edge = 1` need not dominate the other vertices at every `t`. -/
theorem edge_falloff_c9_amended (t s x y z : ℝ) :
    rippleVertex t s (-2, y, z) = (-2, y, z)
    ∧ |waveAt t s x| ≤ 0.15 * |s| * edgeFactor x
    ∧ edgeFactor x ≤ 1
    ∧ edgeFactor 2 = 1 := by
  have hnonneg : ∀ u : ℝ, 0 ≤ edgeFactor u := fun u =>
    le_min (le_max_right _ _) zero_le_one
  refine ⟨?_, ?_, min_le_right _ _, ?_⟩
  · have h0 : edgeFactor (-2) = 0 := by
      simp only [edgeFactor, width]; norm_num
    simp [rippleVertex, waveAt, h0]
  · have habs : |waveAt t s x|
        = |Real.sin (t * waveSpeed + x * waveLength)| * (0.15 * |s|) * edgeFactor x := by
      rw [waveAt, abs_mul, abs_mul, abs_of_nonneg (hnonneg x), abs_mul]
      norm_num
    rw [habs]
    have hsin : |Real.sin (t * waveSpeed + x * waveLength)| ≤ 1 :=
      abs_le.mpr ⟨Real.neg_one_le_sin _, Real.sin_le_one _⟩
    calc |Real.sin (t * waveSpeed + x * waveLength)| * (0.15 * |s|) * edgeFactor x
        ≤ 1 * (0.15 * |s|) * edgeFactor x := by
          refine mul_le_mul_of_nonneg_right ?_ (hnonneg x)
          exact mul_le_mul_of_nonneg_right hsin (by positivity)
      _ = 0.15 * |s| * edgeFactor x := by ring
  · simp only [edgeFactor, width]; norm_num

/-- C10: the per-frame pass recomputes every vertex from the immutable
cached rest positions, so with the clock fixed it is idempotent — a second
application at the same `t` changes nothing — displacement never accumulates,
and the `x` component of every vertex is rewritten to its rest value. -/
theorem ripple_idempotent_c10 (t s : ℝ) (g : Geometry) (orig : List (ℝ × ℝ × ℝ))
    (h : g.originalPositions = some orig) :
    (rippleMeshGeo t s g).positions = orig.map (rippleVertex t s)
    ∧ rippleMeshGeo t s (rippleMeshGeo t s g) = rippleMeshGeo t s g
    ∧ ∀ v ∈ orig, (rippleVertex t s v).1 = v.1 := by
  refine ⟨by simp [rippleMeshGeo, h], by simp [rippleMeshGeo, h], fun v _ => rfl⟩

/-- Witness for C10: a geometry with a cached rest-position array, on which
the pass rewrites the buffer from the cache and a second pass is a no-op. -/
theorem ripple_idempotent_c10_witness :
    (rippleMeshGeo 0 1 ⟨[(1, 1, 1)], some [(0, 0, 0)], true, false⟩).positions
      = [((0 : ℝ), (0 : ℝ), (0 : ℝ))].map (rippleVertex 0 1)
    ∧ rippleMeshGeo 0 1 (rippleMeshGeo 0 1 ⟨[(1, 1, 1)], some [(0, 0, 0)], true, false⟩)
      = rippleMeshGeo 0 1 ⟨[(1, 1, 1)], some [(0, 0, 0)], true, false⟩ :=
  ⟨(ripple_idempotent_c10 0 1 _ _ rfl).1, (ripple_idempotent_c10 0 1 _ _ rfl).2.1⟩

/-- C2: the flag setup on a group with exactly two qualifying meshes does
NOT complete: the cache `forEach` of lines 101-105 iterates over all five
slots, and reading `.geometry` of the `undefined` third slot throws a
`TypeError`, contradicting the claim that the optional rank-3..5 meshes may
be absent without a crash. -/
theorem setup_crash_c2 :
    flagSetup
        [⟨"m1", ⟨[(0, 0, 0), (1, 0, 0)], none, false, false⟩⟩,
         ⟨"m2", ⟨[(0, 0, 0)], none, false, false⟩⟩]
      = .crashed "TypeError: cannot read geometry of undefined" := rfl

/-- C5: a mesh group with fewer than two qualifying meshes makes the setup
abort with the logged warning, and the per-frame pass — whose `flagRef` was
never populated — invokes the `rippleMesh` deformation routine zero times
and leaves the state untouched. -/
theorem setup_abort_c5 (ms : List FlagMesh) (t w : ℝ) (c : Bool) (h : ms.length < 2) :
    flagSetup ms = .aborted "🚩 Not enough deformable meshes found"
    ∧ flagFrame t ⟨flagRefAfterSetup (flagSetup ms), w, c⟩
      = (⟨flagRefAfterSetup (flagSetup ms), w, c⟩, 0) := by
  have hlen : (sortMeshes ms).length = ms.length :=
    (List.perm_insertionSort countGE ms).length_eq
  have h1 : (sortMeshes ms)[1]? = none := List.getElem?_eq_none (by omega)
  have habort : flagSetup ms = .aborted "🚩 Not enough deformable meshes found" := by
    unfold flagSetup
    rw [h1]
    cases (sortMeshes ms)[0]? <;> rfl
  refine ⟨habort, ?_⟩
  rw [habort]
  by_cases hw : w ≤ 0 <;> simp [flagFrame, flagRefAfterSetup, hw]

/-- Witness for C5: a single-mesh group aborts and a later frame at wave
strength `3` performs no deformation. -/
theorem setup_abort_c5_witness :
    flagSetup [⟨"only", ⟨[(0, 0, 0)], none, false, false⟩⟩]
      = .aborted "🚩 Not enough deformable meshes found"
    ∧ flagFrame 0
        ⟨flagRefAfterSetup (flagSetup [⟨"only", ⟨[(0, 0, 0)], none, false, false⟩⟩]), 3, false⟩
      = (⟨flagRefAfterSetup (flagSetup [⟨"only", ⟨[(0, 0, 0)], none, false, false⟩⟩]), 3, false⟩, 0) :=
  setup_abort_c5 _ 0 3 false (by norm_num)

/-- C8: whenever `waveStrength.current ≤ 0` the frame callback returns at
once — the state (in particular every vertex buffer and every `needsUpdate`
flag) is exactly what it was, and `rippleMesh` is invoked zero times. -/
theorem wave_skip_c8 (t : ℝ) (st : FlagState) (h : st.waveStrength ≤ 0) :
    flagFrame t st = (st, 0) := by
  simp [flagFrame, h]

/-- Witness for C8: a frame at wave strength `0` on a fully populated
`flagRef` leaves the state untouched. -/
theorem wave_skip_c8_witness :
    flagFrame 0
        ⟨some ⟨⟨[], some [], true, false⟩, ⟨[], some [], true, false⟩, none, none, none⟩, 0, false⟩
      = (⟨some ⟨⟨[], some [], true, false⟩, ⟨[], some [], true, false⟩, none, none, none⟩, 0, false⟩, 0) :=
  wave_skip_c8 0 _ (le_refl 0)

/-- C3, counterexample: at `t = 2` — after core activation, long before the
decay timeline completes at `t = 9` — `waveStrength.current` is still `0`,
so the click handler's guard `if (waveStrength.current > 0) return;` lets the
click navigate although the exposed `isClickable` boolean is still `false`:
navigation is NOT gated on the interactive state. -/
theorem click_gate_c3_counterexample :
    clickNavigates 2 = true ∧ isClickableAt 2 = false := by decide

/-- C3 as amended: the exposed interactive boolean is `false` from core
activation until the amplitude-decay tween completes at `t = 9` and `true`
exactly from its completion; but the click handler tests the wave strength,
not the interactive boolean, so a qualifying click triggers navigation
exactly when `waveStrength.current ≤ 0` — which holds before the rotate
tween completes (`t < 4`) as well as after the decay completes (`t ≥ 9`),
and fails only during the decay itself. -/
theorem click_gate_c3_amended (t : ℚ) :
    (isClickableAt t = true ↔ 9 ≤ t)
    ∧ (clickNavigates t = true ↔ (t < 4 ∨ 9 ≤ t)) := by
  constructor
  · simp [isClickableAt]
  · have hiff : clickNavigates t = true ↔ waveStrengthAt t ≤ 0 := by
      simp [clickNavigates, not_lt]
    rw [hiff, waveStrengthAt]
    split_ifs with h4 h9
    · exact iff_of_true (le_refl 0) (Or.inl h4)
    · have hq : 0 < 1 - (t - 4) / 5 := by linarith
      have hpos : 0 < 5 + (0 - 5) * easePower2Out ((t - 4) / 5) := by
        rw [easePower2Out]
        nlinarith [pow_pos hq 3]
      refine iff_of_false (not_le.mpr hpos) ?_
      rintro (hc | hc) <;> linarith
    · exact iff_of_true (le_refl 0) (Or.inr (not_lt.mp h9))

/-- C4: the mascot timeline runs its steps strictly in order — the leg loop
is paused before `t = 5`, the single `legTl.play()` call fires at `t = 5`,
the root-position tween occupies `[5, 9]` (duration `4`, completing at
`t = 9`), `legTl.pause()` fires at `t = 9` with no later `play`, and, exactly
when a neck joint was resolved, a final tween of duration `1.8` with the
`power2.out` ease blends the neck from the orientation captured in
`startQuat` to the fixed look-at-viewer orientation; no step before it
writes the neck, so the captured orientation is still the neck's current
orientation when the blend starts. -/
theorem mascot_sequence_c4 (neckStart : Option Quat) :
    (∀ t : ℚ, legPlayingAt (bodyTl neckStart) t = true ↔ (5 ≤ t ∧ t < 9))
    ∧ (bodyTl neckStart).countP isLegPlay = 1
    ∧ (bodyTl neckStart)[2]? = some (.moveTween 4 (-9.5) .power2InOut)
    ∧ stepStart (bodyTl neckStart) 2 = 5
    ∧ stepStart (bodyTl neckStart) 2 + 4 = 9
    ∧ (bodyTl neckStart)[3]? = some .callLegPause
    ∧ stepStart (bodyTl neckStart) 3 = 9
    ∧ (bodyTl neckStart)[4]?
      = neckStart.map (fun q => .neckTween 1.8 q lookAtViewerQuat .power2Out)
    ∧ stepStart (bodyTl neckStart) 4 = 9
    ∧ ∀ i : ℕ, i < 4 → ∀ st, (bodyTl neckStart)[i]? = some st → writesNeck st = false := by
  refine ⟨?_, ?_, ?_, ?_, ?_, ?_, ?_, ?_, ?_, ?_⟩
  · intro t
    cases neckStart <;>
      · simp only [bodyTl, legPlayingAt, legStateGo, legEffect, stepDuration,
          List.cons_append, List.nil_append]
        norm_num
        by_cases h0 : 0 ≤ t <;> by_cases h5 : 5 ≤ t <;> by_cases h9 : 9 ≤ t <;>
          simp [h0, h5, h9] <;> linarith
  · cases neckStart <;> rfl
  · cases neckStart <;> rfl
  · cases neckStart <;> norm_num [stepStart, bodyTl, stepDuration]
  · cases neckStart <;> norm_num [stepStart, bodyTl, stepDuration]
  · cases neckStart <;> rfl
  · cases neckStart <;> norm_num [stepStart, bodyTl, stepDuration]
  · cases neckStart <;> rfl
  · cases neckStart <;> norm_num [stepStart, bodyTl, stepDuration]
  · intro i hi st hst
    cases neckStart <;> interval_cases i <;> simp_all [bodyTl] <;> subst hst <;> rfl

/-- Witness for C4: with a resolved neck joint at rest orientation, the legs
are playing at `t = 6`, the pause call sits at timeline position `9`, and the
look-at blend step records the captured and the look-at orientations. -/
theorem mascot_sequence_c4_witness :
    legPlayingAt (bodyTl (some ⟨0, 0, 0, 1⟩)) 6 = true
    ∧ stepStart (bodyTl (some ⟨0, 0, 0, 1⟩)) 3 = 9
    ∧ (bodyTl (some ⟨0, 0, 0, 1⟩))[4]?
      = some (.neckTween 1.8 ⟨0, 0, 0, 1⟩ lookAtViewerQuat .power2Out) :=
  ⟨((mascot_sequence_c4 (some ⟨0, 0, 0, 1⟩)).1 6).mpr (by norm_num),
   (mascot_sequence_c4 (some ⟨0, 0, 0, 1⟩)).2.2.2.2.2.2.1,
   (mascot_sequence_c4 (some ⟨0, 0, 0, 1⟩)).2.2.2.2.2.2.2.1⟩

/-- C7: if any of the four leg joints fails to resolve by name, the rhino
`useEffect` aborts with the `"🦏 Missing leg bones"` diagnostic before either
timeline is created (so no timeline callback can ever mutate a joint); if
only the neck joint fails to resolve, the setup still returns the leg loop
and the body timeline unchanged, with the body timeline containing its four
leg/body steps and no neck-writing step — the look-at phase alone is
omitted. -/
theorem bone_guard_c7 (bones : String → Option Bone) :
    ((bones "Front_leg_1_L" = none ∨ bones "Back_leg_1_L" = none
        ∨ bones "Front_leg_1_R" = none ∨ bones "Back_leg_1_R" = none) →
      rhinoSetup bones = .aborted "🦏 Missing leg bones")
    ∧ ((bones "Front_leg_1_L").isSome = true → (bones "Back_leg_1_L").isSome = true →
        (bones "Front_leg_1_R").isSome = true → (bones "Back_leg_1_R").isSome = true →
        bones "Neck_mover_bone" = none →
          rhinoSetup bones = .ok ⟨legTl, bodyTl none⟩
          ∧ (bodyTl none).length = 4
          ∧ ∀ st ∈ bodyTl none, writesNeck st = false) := by
  constructor
  · intro h
    cases hFL : bones "Front_leg_1_L" <;> cases hBL : bones "Back_leg_1_L" <;>
      cases hFR : bones "Front_leg_1_R" <;> cases hBR : bones "Back_leg_1_R" <;>
      simp_all [rhinoSetup]
  · intro h1 h2 h3 h4 hn
    obtain ⟨fl, hfl⟩ := Option.isSome_iff_exists.mp h1
    obtain ⟨bl, hbl⟩ := Option.isSome_iff_exists.mp h2
    obtain ⟨fr, hfr⟩ := Option.isSome_iff_exists.mp h3
    obtain ⟨br, hbr⟩ := Option.isSome_iff_exists.mp h4
    refine ⟨?_, rfl, ?_⟩
    · unfold rhinoSetup
      rw [hfl, hbl, hfr, hbr, hn]
      rfl
    · intro st hst
      fin_cases hst <;> rfl

/-- Witness for C7: a scene with no bones at all aborts; a scene with every
bone except the neck yields the timelines with the look-at phase omitted. -/
theorem bone_guard_c7_witness :
    rhinoSetup (fun _ => none) = .aborted "🦏 Missing leg bones"
    ∧ rhinoSetup
        (fun n => if n = "Neck_mover_bone" then none else some ⟨n, ⟨0, 0, 0, 1⟩⟩)
      = .ok ⟨legTl, bodyTl none⟩ :=
  ⟨(bone_guard_c7 (fun _ => none)).1 (Or.inl rfl),
   ((bone_guard_c7
        (fun n => if n = "Neck_mover_bone" then none else some ⟨n, ⟨0, 0, 0, 1⟩⟩)).2
      rfl rfl rfl rfl rfl).1⟩

/-- Inserting `a` into `l` with the descending-count order either prepends
`a` to the elements of count `c` (when `a` has count `c`) or leaves the
count-`c` elements of `l` untouched: the step lemma behind the stability of
the classifier's sort. -/
theorem filter_orderedInsert_count (c : ℕ) (a : FlagMesh) (l : List FlagMesh) :
    (List.orderedInsert countGE a l).filter (fun m => meshCount m == c)
      = if meshCount a == c then a :: l.filter (fun m => meshCount m == c)
        else l.filter (fun m => meshCount m == c) := by
  induction l with
  | nil =>
      by_cases h : (meshCount a == c) = true
      · simp [List.orderedInsert, List.filter, h]
      · simp only [Bool.not_eq_true] at h
        simp [List.orderedInsert, List.filter, h]
  | cons b l ih =>
      by_cases hab : countGE a b
      · simp only [List.orderedInsert, if_pos hab, List.filter_cons]
      · have hgt : meshCount a < meshCount b := not_le.mp hab
        simp only [List.orderedInsert, if_neg hab, List.filter_cons, ih]
        by_cases hpa : (meshCount a == c) = true
        · have hpb : (meshCount b == c) = false := by
            rw [beq_iff_eq] at hpa
            rw [beq_eq_false_iff_ne]
            omega
          simp [hpa, hpb]
        · simp only [Bool.not_eq_true] at hpa
          simp [hpa]

/-- The classifier's sort is stable: for every vertex count `c`, the
count-`c` meshes appear in the sorted list exactly in their input order. -/
theorem filter_sortMeshes (c : ℕ) (ms : List FlagMesh) :
    (sortMeshes ms).filter (fun m => meshCount m == c)
      = ms.filter (fun m => meshCount m == c) := by
  induction ms with
  | nil => rfl
  | cons a l ih =>
      simp only [sortMeshes, List.insertionSort] at *
      rw [filter_orderedInsert_count, ih, List.filter_cons]

/-- C6: on a group with at least two qualifying meshes the classifier takes
exactly the first five slots of the stable descending sort: at least the two
mandatory targets are selected, `min 5 n` targets in all, the selection is
ordered by vertex count descending, every unselected mesh has a vertex count
no larger than every selected one, the sort is a permutation of the input,
and meshes of equal vertex count keep their input order (stability). -/
theorem classifier_c6 (ms : List FlagMesh) (h : 2 ≤ ms.length) :
    selectTargets ms = (sortMeshes ms).take 5
    ∧ 2 ≤ (selectTargets ms).length
    ∧ (selectTargets ms).length = min 5 ms.length
    ∧ List.Sorted countGE (selectTargets ms)
    ∧ (∀ a ∈ selectTargets ms, ∀ b ∈ (sortMeshes ms).drop 5, meshCount b ≤ meshCount a)
    ∧ (sortMeshes ms).Perm ms
    ∧ ∀ c : ℕ, (sortMeshes ms).filter (fun m => meshCount m == c)
        = ms.filter (fun m => meshCount m == c) := by
  have hperm : (sortMeshes ms).Perm ms := List.perm_insertionSort countGE ms
  have hlen : (sortMeshes ms).length = ms.length := hperm.length_eq
  have hsorted : List.Sorted countGE (sortMeshes ms) :=
    List.sorted_insertionSort countGE ms
  have hsel : (selectTargets ms).length = min 5 ms.length := by
    simp [selectTargets, List.length_take, hlen]
  refine ⟨rfl, ?_, hsel, ?_, ?_, hperm, fun c => filter_sortMeshes c ms⟩
  · omega
  · exact hsorted.sublist (List.take_sublist 5 (sortMeshes ms))
  · intro a ha b hb
    have := hsorted
    rw [← List.take_append_drop 5 (sortMeshes ms)] at this
    exact (List.pairwise_append.mp this).2.2 a ha b hb

/-- Witness for C6: a three-mesh group (counts `1`, `3`, `3`) has at least
two meshes; the selection is the whole sorted list and the tied count-3
meshes keep their input order. -/
theorem classifier_c6_witness :
    selectTargets [meshA, meshB, meshC] = (sortMeshes [meshA, meshB, meshC]).take 5
    ∧ 2 ≤ (selectTargets [meshA, meshB, meshC]).length
    ∧ (sortMeshes [meshA, meshB, meshC]).filter (fun m => meshCount m == 3)
      = [meshA, meshB, meshC].filter (fun m => meshCount m == 3) :=
  ⟨(classifier_c6 [meshA, meshB, meshC] (by norm_num)).1,
   (classifier_c6 [meshA, meshB, meshC] (by norm_num)).2.1,
   (classifier_c6 [meshA, meshB, meshC] (by norm_num)).2.2.2.2.2.2 3⟩

end DigitalRhinos
